import Mathlib

/-
Verification of the Mars crop-growth simulation (plant_simulation_3.py and
plant_simulation_2.py) against its natural-language specification.

The numeric code is float arithmetic over numpy; it is embedded here over the
real numbers ℝ.  Python / numpy expressions are translated term by term:

* module constants (plant_simulation_3.py lines 21-60) become Lean constants;
* `logistic_growth` (lines 65-67) and `growth_factor` (lines 70-72) become
  ℝ-valued functions;
* the environment lookups `solar_radiation` (lines 75-85), `temperature`
  (lines 88-107) and `dust_storm` (lines 110-120) wrap scipy's `interp1d`
  with its default `bounds_error=True`, which raises for arguments outside
  the sampled range; this is embedded as an `Except LookupError` value;
* `simulate_growth` (lines 123-164) is embedded as a fold over crop indices
  of a fold over day indices, updating a state of two matrices, exactly
  mirroring the two nested `for` loops and the in-place matrix writes.

`simulate_growth` reads the per-crop soil arrays (module globals, lines
189-192) and the three interpolated environment series; those vary between
runs, so the embedding packages them as an explicit input record `SimInputs`.
The fields `solarAt`, `tempAt`, `dustAt` give the value of the corresponding
interpolated series at simulated day j, i.e. the composition of the
interpolation with the calendar mapping of lines 136-142 (the claims under
verification quantify over these values, never over the calendar formula
itself).  The module constant `GROWTH_RATE` (line 28) is likewise carried as
a field so that claims about (in)dependence on it are statable; the loop
body, like the source, never reads it.
-/

noncomputable section

namespace MarsSim

/-- NUM_DAYS, plant_simulation_3.py line 21. -/
def NUM_DAYS : ℕ := 100

/-- NUM_CROPS, plant_simulation_3.py line 22. -/
def NUM_CROPS : ℕ := 7

/-- INIT_BIOMASS, plant_simulation_3.py line 24. -/
def INIT_BIOMASS : ℝ := 0.01

/-- INIT_HEIGHT, plant_simulation_3.py line 25. -/
def INIT_HEIGHT : ℝ := 0.1

/-- MAX_BIOMASS, plant_simulation_3.py line 26. -/
def MAX_BIOMASS : List ℝ := [1.0, 0.5, 0.2, 0.1, 0.4, 0.3, 0.15]

/-- MAX_HEIGHT, plant_simulation_3.py line 27. -/
def MAX_HEIGHT : List ℝ := [1.0, 2.0, 0.3, 0.2, 1.5, 1.0, 0.5]

/-- GROWTH_RATE, plant_simulation_3.py line 28 (defined but never read by the
simulation loop). -/
def GROWTH_RATE : List ℝ := [0.02, 0.03, 0.04, 0.05, 0.03, 0.02, 0.01]

/-- PH_TOLERANCE, plant_simulation_3.py line 29. -/
def PH_TOLERANCE : List ℝ := [6.5, 6.5, 6.5, 6.5, 6.5, 6.5, 7]

/-- N_TOLERANCE, plant_simulation_3.py line 30. -/
def N_TOLERANCE : List ℝ := [150, 150, 150, 150, 200, 150, 100]

/-- P_TOLERANCE, plant_simulation_3.py line 31. -/
def P_TOLERANCE : List ℝ := [50, 50, 50, 50, 50, 50, 50]

/-- K_TOLERANCE, plant_simulation_3.py line 32. -/
def K_TOLERANCE : List ℝ := [100, 100, 100, 100, 100, 100, 100]

/-- SOLAR_FACTOR, plant_simulation_3.py line 35. -/
def SOLAR_FACTOR : List ℝ := [1.2, 1.2, 1.2, 1.2, 1.2, 1.2, 1.4]

/-- TEMP_FACTOR, plant_simulation_3.py line 36. -/
def TEMP_FACTOR : List ℝ := [1.2, 1.2, 1.4, 1.4, 1.2, 1.2, 1]

/-- DUST_FACTOR, plant_simulation_3.py line 37. -/
def DUST_FACTOR : List ℝ := [0.8, 0.8, 0.8, 0.8, 0.8, 0.8, 0.6]

/-- LATITUDE, plant_simulation_3.py line 40. -/
def LATITUDE : ℝ := 18.65

/-- ELEVATION, plant_simulation_3.py line 41. -/
def ELEVATION : ℝ := -4.5

/-- TIME_ZONE, plant_simulation_3.py line 42. -/
def TIME_ZONE : ℝ := 3

/-- SOLAR_MAX, plant_simulation_3.py line 48. -/
def SOLAR_MAX : ℝ := 717

/-- logistic_growth, plant_simulation_3.py lines 65-67 (identical to
plant_simulation_2.py lines 30-32):
`return k * x / (x + k - x * INIT_BIOMASS / k)`. -/
def logistic_growth (x k : ℝ) : ℝ :=
  k * x / (x + k - x * INIT_BIOMASS / k)

/-- Generalisation of `logistic_growth` in which the initial-value constant is
a parameter `b`; `logistic_growth = logisticWithInit INIT_BIOMASS`.  Used to
express that the source formula is sensitive to the global initial-biomass
constant even when the quantity being grown is height. -/
def logisticWithInit (b x k : ℝ) : ℝ :=
  k * x / (x + k - x * b / k)

/-- growth_factor, plant_simulation_3.py lines 70-72 (identical to
plant_simulation_2.py lines 35-37):
`return np.exp(-np.abs(x - x_opt) / x_opt)`.
The source performs the division unconditionally; numpy float division by
zero produces inf/nan with only a runtime warning, and the embedding uses
the total real division (division by zero yields zero).  In both semantics
the function returns a numeric value for `x_opt = 0`; there is no error
branch. -/
def growth_factor (x x_opt : ℝ) : ℝ :=
  Real.exp (-|x - x_opt| / x_opt)

/-- Error condition raised by an environment-series lookup whose day argument
lies outside the sampled range of the backing table (scipy `interp1d` with
its default `bounds_error=True` raises ValueError there). -/
inductive LookupError where
  | outOfRange
deriving DecidableEq

/-- Linear interpolation through the sample points of a table sorted by the
first coordinate: the value at `d` inside the first bracketing interval
`[p.1, q.1]` with `d ≤ q.1`, as computed by scipy `interp1d(..., kind="linear")`
for in-range arguments. -/
def interpPts : List (ℝ × ℝ) → ℝ → ℝ
  | [], _ => 0
  | [p], _ => p.2
  | p :: q :: rest, d =>
      if d ≤ q.1 then p.2 + (q.2 - p.2) * (d - p.1) / (q.1 - p.1)
      else interpPts (q :: rest) d

/-- scipy `interp1d(xs, ys, kind="linear")` applied to a single point, with
the library's default `bounds_error=True`: an argument below the first sample
or above the last raises, embedded as `Except.error .outOfRange`. -/
def interp1d (tbl : List (ℝ × ℝ)) (d : ℝ) : Except LookupError ℝ :=
  match tbl with
  | [] => .error .outOfRange
  | p :: rest =>
      if d < p.1 ∨ (rest.getLastD p).1 < d then .error .outOfRange
      else .ok (interpPts (p :: rest) d)

/-- solar_radiation, plant_simulation_3.py lines 75-85: interpolate the
solar-radiation table at `day`. -/
def solar_radiation (tbl : List (ℝ × ℝ)) (day : ℝ) : Except LookupError ℝ :=
  interp1d tbl day

/-- temperature, plant_simulation_3.py lines 88-107: interpolate the
temperature table at `day` and add the diurnal variation
`dtv * dft = (20 cos(radians(LATITUDE)) exp(-ELEVATION/10)) * cos(2π (hour + TIME_ZONE) / 24)`. -/
def temperature (tbl : List (ℝ × ℝ)) (day hour : ℝ) : Except LookupError ℝ :=
  match interp1d tbl day with
  | .error e => .error e
  | .ok v =>
      .ok (v + 20 * Real.cos (LATITUDE * Real.pi / 180) * Real.exp (-ELEVATION / 10) *
        Real.cos (2 * Real.pi * (hour + TIME_ZONE) / 24))

/-- dust_storm, plant_simulation_3.py lines 110-120: interpolate the
dust-opacity table at `day`. -/
def dust_storm (tbl : List (ℝ × ℝ)) (day : ℝ) : Except LookupError ℝ :=
  interp1d tbl day

/-- The run-varying inputs read by `simulate_growth`: the four per-crop soil
arrays (module globals of lines 189-192) and, for each simulated day `j`, the
values of the three interpolated environment series at the Martian calendar
position of day `j` (lines 136-148).  `growth_rate` carries the GROWTH_RATE
table, which is in scope of the source function but never read by it. -/
structure SimInputs where
  soil_ph : ℕ → ℝ
  soil_n : ℕ → ℝ
  soil_p : ℕ → ℝ
  soil_k : ℕ → ℝ
  solarAt : ℕ → ℝ
  tempAt : ℕ → ℝ
  dustAt : ℕ → ℝ
  growth_rate : List ℝ

/-- solar_effect, plant_simulation_3.py lines 145-146:
`solar_radiation(current_day) / SOLAR_MAX * growth_factor(solar_radiation(current_day) / (1 + dust_storm(current_day)), SOLAR_FACTOR[i])`. -/
def solar_effect (inp : SimInputs) (i j : ℕ) : ℝ :=
  inp.solarAt j / SOLAR_MAX *
    growth_factor (inp.solarAt j / (1 + inp.dustAt j)) (SOLAR_FACTOR.getD i 0)

/-- temp_effect, plant_simulation_3.py line 147:
`growth_factor(temperature(current_day, current_hour), TEMP_FACTOR[i])`. -/
def temp_effect (inp : SimInputs) (i j : ℕ) : ℝ :=
  growth_factor (inp.tempAt j) (TEMP_FACTOR.getD i 0)

/-- dust_effect, plant_simulation_3.py line 148:
`growth_factor(1 / (1 + dust_storm(current_day)), DUST_FACTOR[i])`. -/
def dust_effect (inp : SimInputs) (i j : ℕ) : ℝ :=
  growth_factor (1 / (1 + inp.dustAt j)) (DUST_FACTOR.getD i 0)

/-- The right-hand side of the update assignments, plant_simulation_3.py
lines 151-156 (biomass) and 157-162 (height): the logistic update of the
previous value against the carrying capacity `cap`, multiplied (in source
order) by the four soil factors and the three environment effects of day `j`. -/
def dayUpdate (inp : SimInputs) (cap : ℝ) (i j : ℕ) (prev : ℝ) : ℝ :=
  logistic_growth prev cap *
    growth_factor (inp.soil_ph i) (PH_TOLERANCE.getD i 0) *
    growth_factor (inp.soil_n i) (N_TOLERANCE.getD i 0) *
    growth_factor (inp.soil_p i) (P_TOLERANCE.getD i 0) *
    growth_factor (inp.soil_k i) (K_TOLERANCE.getD i 0) *
    solar_effect inp i j * temp_effect inp i j * dust_effect inp i j

/-- The two result matrices of `simulate_growth`, plant_simulation_3.py
lines 125-126, as total maps from (crop index, day index). -/
structure GrowthState where
  biomass : ℕ → ℕ → ℝ
  height : ℕ → ℕ → ℝ

/-- In-place write of one matrix entry, embedding `m[i, j] = v`. -/
def setEntry (m : ℕ → ℕ → ℝ) (i j : ℕ) (v : ℝ) : ℕ → ℕ → ℝ :=
  fun i' j' => if i' = i ∧ j' = j then v else m i' j'

/-- The matrices after `np.zeros` and the column-0 initialisation of
plant_simulation_3.py lines 125-128. -/
def initState : GrowthState where
  biomass := fun _ j => if j = 0 then INIT_BIOMASS else 0
  height := fun _ j => if j = 0 then INIT_HEIGHT else 0

/-- One iteration of the inner day loop for crop `i` and day `j`,
plant_simulation_3.py lines 150-162: write `biomass[i, j]` and
`height[i, j]` from the previous-day entries. -/
def stepDay (inp : SimInputs) (i j : ℕ) (s : GrowthState) : GrowthState where
  biomass := setEntry s.biomass i j
    (dayUpdate inp (MAX_BIOMASS.getD i 0) i j (s.biomass i (j - 1)))
  height := setEntry s.height i j
    (dayUpdate inp (MAX_HEIGHT.getD i 0) i j (s.height i (j - 1)))

/-- The inner loop `for j in range(1, NUM_DAYS)`, plant_simulation_3.py
line 134, for crop `i`. -/
def cropLoop (inp : SimInputs) (i : ℕ) (s : GrowthState) : GrowthState :=
  (List.range' 1 (NUM_DAYS - 1)).foldl (fun t j => stepDay inp i j t) s

/-- simulate_growth, plant_simulation_3.py lines 123-164: the outer loop
`for i in range(NUM_CROPS)` over the inner day loop, starting from the
initialised matrices. -/
def simulate_growth (inp : SimInputs) : GrowthState :=
  (List.range NUM_CROPS).foldl (fun s i => cropLoop inp i s) initState

/-- The per-crop recurrence sequence: value `b0` at day 0, then the
day-`j+1` update applied to the day-`j` value.  `simulate_growth` is proved
below to fill row `i` of each matrix with this sequence. -/
def seqFrom (inp : SimInputs) (cap : ℝ) (i : ℕ) (b0 : ℝ) : ℕ → ℝ
  | 0 => b0
  | j + 1 => dayUpdate inp cap i (j + 1) (seqFrom inp cap i b0 j)

/-- A concrete input record (all soil and environment values zero), used to
instantiate universally quantified theorems at a specific point. -/
def zeroInp : SimInputs where
  soil_ph := fun _ => 0
  soil_n := fun _ => 0
  soil_p := fun _ => 0
  soil_k := fun _ => 0
  solarAt := fun _ => 0
  tempAt := fun _ => 0
  dustAt := fun _ => 0
  growth_rate := GROWTH_RATE

/-- Reading any entry of the biomass matrix after one day-step: only the
entry at row `i`, column `j` changes, and it receives the day update of the
column `j - 1` entry. -/
theorem stepDay_biomass_apply (inp : SimInputs) (i j : ℕ) (s : GrowthState) (i' j' : ℕ) :
    (stepDay inp i j s).biomass i' j' =
      if i' = i ∧ j' = j then
        dayUpdate inp (MAX_BIOMASS.getD i 0) i j (s.biomass i (j - 1))
      else s.biomass i' j' := rfl

/-- Reading any entry of the height matrix after one day-step. -/
theorem stepDay_height_apply (inp : SimInputs) (i j : ℕ) (s : GrowthState) (i' j' : ℕ) :
    (stepDay inp i j s).height i' j' =
      if i' = i ∧ j' = j then
        dayUpdate inp (MAX_HEIGHT.getD i 0) i j (s.height i (j - 1))
      else s.height i' j' := rfl

/-- Splitting the day range `[1, ..., m]` at its last element. -/
theorem range'_one_concat (m : ℕ) :
    List.range' 1 (m + 1) = List.range' 1 m ++ [1 + m] := by
  have h := @List.range'_concat 1 1 m
  simpa using h

/-- Invariant of the inner day loop for the biomass matrix: after folding the
day steps over `[1, ..., m]`, row `i` holds the recurrence sequence seeded by
the row's column-0 entry on columns `1..m` and is untouched elsewhere. -/
theorem loopDays_biomass (inp : SimInputs) (i : ℕ) :
    ∀ (m : ℕ) (s : GrowthState) (j' : ℕ),
      ((List.range' 1 m).foldl (fun t j => stepDay inp i j t) s).biomass i j' =
        if 1 ≤ j' ∧ j' ≤ m then
          seqFrom inp (MAX_BIOMASS.getD i 0) i (s.biomass i 0) j'
        else s.biomass i j' := by
  intro m
  induction m with
  | zero =>
      intro s j'
      rw [if_neg (by omega)]
      rfl
  | succ k ih =>
      intro s j'
      rw [range'_one_concat, List.foldl_append]
      simp only [List.foldl_cons, List.foldl_nil]
      rw [stepDay_biomass_apply]
      have hsub : 1 + k - 1 = k := by omega
      by_cases hj : j' = 1 + k
      · rw [if_pos ⟨rfl, hj⟩, hsub, ih s k]
        by_cases hk : k = 0
        · subst hk
          rw [if_neg (show ¬(1 ≤ 0 ∧ 0 ≤ 0) by omega)]
          rw [hj, if_pos (show 1 ≤ 1 + 0 ∧ 1 + 0 ≤ 0 + 1 by omega)]
          rfl
        · rw [if_pos (show 1 ≤ k ∧ k ≤ k by omega)]
          rw [hj, if_pos (show 1 ≤ 1 + k ∧ 1 + k ≤ k + 1 by omega)]
          have h1 : 1 + k = k + 1 := by omega
          rw [h1]
          rfl
      · rw [if_neg (fun h => hj h.2), ih s j']
        by_cases hcond : 1 ≤ j' ∧ j' ≤ k
        · rw [if_pos hcond, if_pos (show 1 ≤ j' ∧ j' ≤ k + 1 by omega)]
        · rw [if_neg hcond, if_neg (show ¬(1 ≤ j' ∧ j' ≤ k + 1) by omega)]

/-- Invariant of the inner day loop for the height matrix. -/
theorem loopDays_height (inp : SimInputs) (i : ℕ) :
    ∀ (m : ℕ) (s : GrowthState) (j' : ℕ),
      ((List.range' 1 m).foldl (fun t j => stepDay inp i j t) s).height i j' =
        if 1 ≤ j' ∧ j' ≤ m then
          seqFrom inp (MAX_HEIGHT.getD i 0) i (s.height i 0) j'
        else s.height i j' := by
  intro m
  induction m with
  | zero =>
      intro s j'
      rw [if_neg (by omega)]
      rfl
  | succ k ih =>
      intro s j'
      rw [range'_one_concat, List.foldl_append]
      simp only [List.foldl_cons, List.foldl_nil]
      rw [stepDay_height_apply]
      have hsub : 1 + k - 1 = k := by omega
      by_cases hj : j' = 1 + k
      · rw [if_pos ⟨rfl, hj⟩, hsub, ih s k]
        by_cases hk : k = 0
        · subst hk
          rw [if_neg (show ¬(1 ≤ 0 ∧ 0 ≤ 0) by omega)]
          rw [hj, if_pos (show 1 ≤ 1 + 0 ∧ 1 + 0 ≤ 0 + 1 by omega)]
          rfl
        · rw [if_pos (show 1 ≤ k ∧ k ≤ k by omega)]
          rw [hj, if_pos (show 1 ≤ 1 + k ∧ 1 + k ≤ k + 1 by omega)]
          have h1 : 1 + k = k + 1 := by omega
          rw [h1]
          rfl
      · rw [if_neg (fun h => hj h.2), ih s j']
        by_cases hcond : 1 ≤ j' ∧ j' ≤ k
        · rw [if_pos hcond, if_pos (show 1 ≤ j' ∧ j' ≤ k + 1 by omega)]
        · rw [if_neg hcond, if_neg (show ¬(1 ≤ j' ∧ j' ≤ k + 1) by omega)]

/-- Frame property of the inner day loop: folding day steps of crop `i` never
touches a row `i' ≠ i` of either matrix. -/
theorem foldl_stepDay_ne (inp : SimInputs) (i i' : ℕ) (hne : i' ≠ i) :
    ∀ (L : List ℕ) (s : GrowthState) (j' : ℕ),
      ((L.foldl (fun t j => stepDay inp i j t) s).biomass i' j' = s.biomass i' j') ∧
      ((L.foldl (fun t j => stepDay inp i j t) s).height i' j' = s.height i' j') := by
  intro L
  induction L with
  | nil => intro s j'; exact ⟨rfl, rfl⟩
  | cons a L ih =>
      intro s j'
      simp only [List.foldl_cons]
      refine ⟨?_, ?_⟩
      · rw [(ih (stepDay inp i a s) j').1, stepDay_biomass_apply,
          if_neg (fun h => hne h.1)]
      · rw [(ih (stepDay inp i a s) j').2, stepDay_height_apply,
          if_neg (fun h => hne h.1)]

/-- Frame property of the outer crop loop: folding crop loops over a list of
crop indices all different from `i'` never touches row `i'`. -/
theorem foldl_cropLoop_ne (inp : SimInputs) (i' : ℕ) :
    ∀ (L : List ℕ), (∀ a ∈ L, a ≠ i') →
      ∀ (s : GrowthState) (j' : ℕ),
        ((L.foldl (fun t a => cropLoop inp a t) s).biomass i' j' = s.biomass i' j') ∧
        ((L.foldl (fun t a => cropLoop inp a t) s).height i' j' = s.height i' j') := by
  intro L
  induction L with
  | nil => intro _ s j'; exact ⟨rfl, rfl⟩
  | cons a L ih =>
      intro hL s j'
      simp only [List.foldl_cons]
      have hane : i' ≠ a := fun h => (hL a (List.mem_cons_self a L)) h.symm
      obtain ⟨hb, hh⟩ := ih (fun b hb' => hL b (List.mem_cons_of_mem a hb'))
        (cropLoop inp a s) j'
      refine ⟨?_, ?_⟩
      · rw [hb]
        exact (foldl_stepDay_ne inp a i' hane (List.range' 1 (NUM_DAYS - 1)) s j').1
      · rw [hh]
        exact (foldl_stepDay_ne inp a i' hane (List.range' 1 (NUM_DAYS - 1)) s j').2

/-- Splitting the crop list `[0, ..., NUM_CROPS - 1]` around a chosen crop `i`. -/
theorem range_crops_split (i : ℕ) (hi : i < NUM_CROPS) :
    List.range NUM_CROPS =
      List.range' 0 i ++ (i :: List.range' (i + 1) (NUM_CROPS - i - 1)) := by
  rw [List.range_eq_range']
  rw [← List.range'_succ i (NUM_CROPS - i - 1) 1]
  have h2 : NUM_CROPS - i - 1 + 1 = NUM_CROPS - i := by
    unfold NUM_CROPS at *
    omega
  rw [h2]
  have h3 := @List.range'_append 0 i (NUM_CROPS - i) 1
  simp only [Nat.one_mul, Nat.zero_add] at h3
  rw [h3]
  have h4 : NUM_CROPS - i + i = NUM_CROPS := by
    unfold NUM_CROPS at *
    omega
  rw [h4]

/-- Characterisation of `simulate_growth`: for every crop `i` and day `j`
inside the simulated domain, the biomass entry is the day-`j` value of the
recurrence sequence seeded with `INIT_BIOMASS` against `MAX_BIOMASS[i]`, and
the height entry is the sequence seeded with `INIT_HEIGHT` against
`MAX_HEIGHT[i]`. -/
theorem sim_entry (inp : SimInputs) (i j : ℕ) (hi : i < NUM_CROPS) (hj : j < NUM_DAYS) :
    (simulate_growth inp).biomass i j =
      seqFrom inp (MAX_BIOMASS.getD i 0) i INIT_BIOMASS j ∧
    (simulate_growth inp).height i j =
      seqFrom inp (MAX_HEIGHT.getD i 0) i INIT_HEIGHT j := by
  unfold simulate_growth
  rw [range_crops_split i hi, List.foldl_append]
  simp only [List.foldl_cons]
  have hpre : ∀ a ∈ List.range' 0 i, a ≠ i := by
    intro a ha
    rw [List.mem_range'_1] at ha
    omega
  have hpost : ∀ a ∈ List.range' (i + 1) (NUM_CROPS - i - 1), a ≠ i := by
    intro a ha
    rw [List.mem_range'_1] at ha
    omega
  set sA := (List.range' 0 i).foldl (fun t a => cropLoop inp a t) initState
  have hA0 : sA.biomass i 0 = INIT_BIOMASS ∧ sA.height i 0 = INIT_HEIGHT := by
    obtain ⟨hb, hh⟩ := foldl_cropLoop_ne inp i (List.range' 0 i) hpre initState 0
    constructor
    · rw [hb]; rfl
    · rw [hh]; rfl
  obtain ⟨hpb, hph⟩ := foldl_cropLoop_ne inp i (List.range' (i + 1) (NUM_CROPS - i - 1))
    hpost (cropLoop inp i sA) j
  rw [hpb, hph]
  have hj' : j < 100 := hj
  constructor
  · show ((List.range' 1 (NUM_DAYS - 1)).foldl (fun t j => stepDay inp i j t) sA).biomass i j = _
    rw [loopDays_biomass inp i (NUM_DAYS - 1) sA j, hA0.1]
    by_cases hj0 : j = 0
    · subst hj0
      rw [if_neg (by omega)]
      rw [hA0.1]
      rfl
    · rw [if_pos (show 1 ≤ j ∧ j ≤ NUM_DAYS - 1 from ⟨by omega, by show j ≤ 99; omega⟩)]
  · show ((List.range' 1 (NUM_DAYS - 1)).foldl (fun t j => stepDay inp i j t) sA).height i j = _
    rw [loopDays_height inp i (NUM_DAYS - 1) sA j, hA0.2]
    by_cases hj0 : j = 0
    · subst hj0
      rw [if_neg (by omega)]
      rw [hA0.2]
      rfl
    · rw [if_pos (show 1 ≤ j ∧ j ≤ NUM_DAYS - 1 from ⟨by omega, by show j ≤ 99; omega⟩)]

/-- Claim C2 context (code bug): under all-one environment and soil factors
the biomass sequence is `x_0 = INIT_BIOMASS`, `x_(n+1) = logistic_growth x_n k`
with `k = MAX_BIOMASS[i]`.  The source formula in fact satisfies
`logistic_growth x k < x` for every `0 < x` when `INIT_BIOMASS < k`, so the
sequence strictly decreases instead of increasing toward `k`. -/
theorem logistic_growth_lt_self (x k : ℝ) (hx : 0 < x) (hk : INIT_BIOMASS < k) :
    logistic_growth x k < x := by
  unfold logistic_growth INIT_BIOMASS at *
  have hk0 : 0 < k := lt_trans (by norm_num) hk
  have hfrac : x * 0.01 / k < x := by
    rw [div_lt_iff₀ hk0]
    nlinarith
  have hden : 0 < x + k - x * 0.01 / k := by linarith
  rw [div_lt_iff₀ hden]
  nlinarith [mul_pos hx (sub_pos.mpr hfrac)]

/-- Claim C2 (code bug): at the failing input — crop 0, `k = MAX_BIOMASS[0] = 1.0`,
previous value `INIT_BIOMASS = 0.01` — the very first logistic update already
yields a value strictly below `INIT_BIOMASS`; the pure logistic iteration is
strictly decreasing, contradicting the claimed monotone increase toward
`MAX_BIOMASS[0]`. -/
theorem claim_C2_first_step_decreases :
    logistic_growth INIT_BIOMASS (MAX_BIOMASS.getD 0 0) < INIT_BIOMASS := by
  show logistic_growth INIT_BIOMASS (1.0 : ℝ) < INIT_BIOMASS
  unfold logistic_growth INIT_BIOMASS
  norm_num

/-- Claim C4: an environment-series lookup whose day argument lies outside
the sampled range of the backing table (below the first sampled day or above
the last) fails with the `outOfRange` error condition, for all three series. -/
theorem claim_C4_out_of_range_errors (p : ℝ × ℝ) (rest : List (ℝ × ℝ)) (d hour : ℝ)
    (hout : d < p.1 ∨ (rest.getLastD p).1 < d) :
    solar_radiation (p :: rest) d = .error .outOfRange ∧
    temperature (p :: rest) d hour = .error .outOfRange ∧
    dust_storm (p :: rest) d = .error .outOfRange := by
  have h : interp1d (p :: rest) d = .error .outOfRange := by
    simp only [interp1d]
    rw [if_pos hout]
  refine ⟨h, ?_, h⟩
  unfold temperature
  rw [h]

/-- Witness for claim C4: the lookup at day `-1` in a table sampling days 0
through 1 errors out for all three series. -/
theorem claim_C4_witness :
    solar_radiation [((0 : ℝ), (500 : ℝ)), (1, 600)] (-1) = .error .outOfRange ∧
    temperature [((0 : ℝ), (500 : ℝ)), (1, 600)] (-1) 0 = .error .outOfRange ∧
    dust_storm [((0 : ℝ), (500 : ℝ)), (1, 600)] (-1) = .error .outOfRange :=
  claim_C4_out_of_range_errors (0, 500) [(1, 600)] (-1) 0 (Or.inl (by norm_num))

/-- Claim C5 counterexample: for the negative optimum `x_opt = -1` the claim
fails — `x₁ = -1` has deviation 0, `x₂ = 0` has deviation 1, yet
`growth_factor x₁ x_opt < growth_factor x₂ x_opt`, violating the claimed
`growth_factor x₁ x_opt ≥ growth_factor x₂ x_opt`. -/
theorem claim_C5_counterexample :
    |(-1 : ℝ) - (-1)| < |(0 : ℝ) - (-1)| ∧
    ¬ growth_factor (-1 : ℝ) (-1) ≥ growth_factor (0 : ℝ) (-1) := by
  constructor
  · rw [sub_self, abs_zero]
    have h1 : (0 : ℝ) - (-1) = 1 := by norm_num
    rw [h1, abs_one]
    norm_num
  · rw [ge_iff_le, not_le]
    unfold growth_factor
    rw [sub_self, abs_zero, neg_zero, zero_div]
    have h1 : (0 : ℝ) - (-1) = 1 := by norm_num
    rw [h1, abs_one]
    have h2 : -(1 : ℝ) / (-1) = 1 := by norm_num
    rw [h2]
    exact Real.exp_lt_exp.mpr one_pos

/-- Claim C5 as amended: for every positive optimum `x_opt`, `growth_factor`
is monotonically decreasing in the deviation `|x - x_opt|` — a strictly
smaller deviation gives a value at least as large. -/
theorem claim_C5_amended (x_opt x₁ x₂ : ℝ) (hpos : 0 < x_opt)
    (h : |x₁ - x_opt| < |x₂ - x_opt|) :
    growth_factor x₁ x_opt ≥ growth_factor x₂ x_opt := by
  unfold growth_factor
  rw [ge_iff_le, Real.exp_le_exp, neg_div, neg_div, neg_le_neg_iff]
  gcongr

/-- Witness for the amended claim C5 at `x_opt = 1`, `x₁ = 1`, `x₂ = 3`. -/
theorem claim_C5_amended_witness :
    growth_factor 1 1 ≥ growth_factor 3 1 :=
  claim_C5_amended 1 1 3 one_pos
    (by rw [sub_self, abs_zero]; exact abs_pos.mpr (by norm_num))

/-- Claim C6 (code bug): the source contains no guard for optimum zero — the
division is performed unconditionally and a numeric value is returned, not a
DivideByZero error condition.  In the embedding's total-division semantics
`growth_factor 5 0` evaluates to the number `1` (numpy returns `exp(-inf) = 0.0`
with only a runtime warning); in neither semantics is an error signalled. -/
theorem claim_C6_no_guard : growth_factor 5 0 = 1 := by
  unfold growth_factor
  rw [div_zero, Real.exp_zero]

/-- Claim C9: `growth_factor x_opt x_opt = 1` exactly for every nonzero
optimum, and for every positive optimum the value lies in `(0, 1]` for all
inputs, attaining the maximum `1` at the optimum itself. -/
theorem claim_C9_optimum_and_range :
    (∀ x_opt : ℝ, x_opt ≠ 0 → growth_factor x_opt x_opt = 1) ∧
    (∀ x_opt x : ℝ, 0 < x_opt →
      0 < growth_factor x x_opt ∧ growth_factor x x_opt ≤ 1 ∧
      growth_factor x_opt x_opt = 1) := by
  have hopt : ∀ x_opt : ℝ, growth_factor x_opt x_opt = 1 := by
    intro o
    unfold growth_factor
    rw [sub_self, abs_zero, neg_zero, zero_div, Real.exp_zero]
  refine ⟨fun o _ => hopt o, fun o x ho => ⟨Real.exp_pos _, ?_, hopt o⟩⟩
  apply Real.exp_le_one_iff.mpr
  rw [neg_div]
  exact neg_nonpos_of_nonneg (div_nonneg (abs_nonneg _) ho.le)

/-- Witness for claim C9 at the potato pH optimum `6.5` and input `7`. -/
theorem claim_C9_witness :
    growth_factor 6.5 6.5 = 1 ∧
    0 < growth_factor 7 6.5 ∧ growth_factor 7 6.5 ≤ 1 := by
  refine ⟨claim_C9_optimum_and_range.1 6.5 (by norm_num), ?_, ?_⟩
  · exact (claim_C9_optimum_and_range.2 6.5 7 (by norm_num)).1
  · exact (claim_C9_optimum_and_range.2 6.5 7 (by norm_num)).2.1

/-- Claim C1: for every crop `i` and day `1 ≤ j ≤ N-1`, the biomass entry is
the logistic update of the previous-day biomass against `MAX_BIOMASS[i]`
multiplied by the four soil-adequacy factors and by the day-`j` solar,
temperature and dust effects; the height entry is the identical expression
with `MAX_HEIGHT[i]`; and `solar_effect` is
`(solar / SOLAR_MAX) * growth_factor(solar / (1 + dust), SOLAR_FACTOR[i])`. -/
theorem claim_C1_update_rule (inp : SimInputs) (i j : ℕ)
    (hi : i < NUM_CROPS) (hj1 : 1 ≤ j) (hj : j < NUM_DAYS) :
    (simulate_growth inp).biomass i j =
      logistic_growth ((simulate_growth inp).biomass i (j - 1)) (MAX_BIOMASS.getD i 0) *
        growth_factor (inp.soil_ph i) (PH_TOLERANCE.getD i 0) *
        growth_factor (inp.soil_n i) (N_TOLERANCE.getD i 0) *
        growth_factor (inp.soil_p i) (P_TOLERANCE.getD i 0) *
        growth_factor (inp.soil_k i) (K_TOLERANCE.getD i 0) *
        solar_effect inp i j * temp_effect inp i j * dust_effect inp i j ∧
    (simulate_growth inp).height i j =
      logistic_growth ((simulate_growth inp).height i (j - 1)) (MAX_HEIGHT.getD i 0) *
        growth_factor (inp.soil_ph i) (PH_TOLERANCE.getD i 0) *
        growth_factor (inp.soil_n i) (N_TOLERANCE.getD i 0) *
        growth_factor (inp.soil_p i) (P_TOLERANCE.getD i 0) *
        growth_factor (inp.soil_k i) (K_TOLERANCE.getD i 0) *
        solar_effect inp i j * temp_effect inp i j * dust_effect inp i j ∧
    solar_effect inp i j =
      inp.solarAt j / SOLAR_MAX *
        growth_factor (inp.solarAt j / (1 + inp.dustAt j)) (SOLAR_FACTOR.getD i 0) := by
  obtain ⟨j', rfl⟩ : ∃ j'', j = j'' + 1 := ⟨j - 1, by omega⟩
  obtain ⟨hb1, hh1⟩ := sim_entry inp i (j' + 1) hi hj
  obtain ⟨hb0, hh0⟩ := sim_entry inp i j' hi (Nat.lt_of_succ_lt hj)
  simp only [Nat.add_sub_cancel]
  rw [hb1, hh1, hb0, hh0]
  exact ⟨rfl, rfl, rfl⟩

/-- Witness for claim C1 at crop 0, day 1 of the zero-input run. -/
theorem claim_C1_witness :
    (simulate_growth zeroInp).biomass 0 1 =
      logistic_growth ((simulate_growth zeroInp).biomass 0 0) (MAX_BIOMASS.getD 0 0) *
        growth_factor (zeroInp.soil_ph 0) (PH_TOLERANCE.getD 0 0) *
        growth_factor (zeroInp.soil_n 0) (N_TOLERANCE.getD 0 0) *
        growth_factor (zeroInp.soil_p 0) (P_TOLERANCE.getD 0 0) *
        growth_factor (zeroInp.soil_k 0) (K_TOLERANCE.getD 0 0) *
        solar_effect zeroInp 0 1 * temp_effect zeroInp 0 1 * dust_effect zeroInp 0 1 ∧
    (simulate_growth zeroInp).height 0 1 =
      logistic_growth ((simulate_growth zeroInp).height 0 0) (MAX_HEIGHT.getD 0 0) *
        growth_factor (zeroInp.soil_ph 0) (PH_TOLERANCE.getD 0 0) *
        growth_factor (zeroInp.soil_n 0) (N_TOLERANCE.getD 0 0) *
        growth_factor (zeroInp.soil_p 0) (P_TOLERANCE.getD 0 0) *
        growth_factor (zeroInp.soil_k 0) (K_TOLERANCE.getD 0 0) *
        solar_effect zeroInp 0 1 * temp_effect zeroInp 0 1 * dust_effect zeroInp 0 1 ∧
    solar_effect zeroInp 0 1 =
      zeroInp.solarAt 1 / SOLAR_MAX *
        growth_factor (zeroInp.solarAt 1 / (1 + zeroInp.dustAt 1)) (SOLAR_FACTOR.getD 0 0) :=
  claim_C1_update_rule zeroInp 0 1 (by decide) (by decide) (by decide)

/-- Claim C3: the height update uses the same `logistic_growth` as the
biomass update; that function computes `k*x/(x + k - x*INIT_BIOMASS/k)` with
the global biomass initial-value constant `INIT_BIOMASS = 0.01` (not
`INIT_HEIGHT = 0.1`); the formula genuinely depends on which initial-value
constant is plugged in (shown at the height-relevant input); and for every
crop and day `j ≥ 1` the height entry is computed through this
`INIT_BIOMASS`-bearing function. -/
theorem claim_C3_height_uses_biomass_init :
    (∀ x k : ℝ, logistic_growth x k = k * x / (x + k - x * INIT_BIOMASS / k)) ∧
    (∀ x k : ℝ, logistic_growth x k = logisticWithInit INIT_BIOMASS x k) ∧
    INIT_BIOMASS = 0.01 ∧ INIT_HEIGHT = 0.1 ∧ INIT_BIOMASS ≠ INIT_HEIGHT ∧
    logisticWithInit INIT_BIOMASS INIT_HEIGHT (MAX_HEIGHT.getD 0 0) ≠
      logisticWithInit INIT_HEIGHT INIT_HEIGHT (MAX_HEIGHT.getD 0 0) ∧
    (∀ (inp : SimInputs) (i j : ℕ), i < NUM_CROPS → 1 ≤ j → j < NUM_DAYS →
      (simulate_growth inp).height i j =
        logistic_growth ((simulate_growth inp).height i (j - 1)) (MAX_HEIGHT.getD i 0) *
          growth_factor (inp.soil_ph i) (PH_TOLERANCE.getD i 0) *
          growth_factor (inp.soil_n i) (N_TOLERANCE.getD i 0) *
          growth_factor (inp.soil_p i) (P_TOLERANCE.getD i 0) *
          growth_factor (inp.soil_k i) (K_TOLERANCE.getD i 0) *
          solar_effect inp i j * temp_effect inp i j * dust_effect inp i j) := by
  refine ⟨fun x k => rfl, fun x k => rfl, rfl, rfl, ?_, ?_, ?_⟩
  · unfold INIT_BIOMASS INIT_HEIGHT
    norm_num
  · show logisticWithInit INIT_BIOMASS INIT_HEIGHT (1.0 : ℝ) ≠
      logisticWithInit INIT_HEIGHT INIT_HEIGHT (1.0 : ℝ)
    unfold logisticWithInit INIT_BIOMASS INIT_HEIGHT
    norm_num
  · intro inp i j hi hj1 hj
    obtain ⟨j', rfl⟩ : ∃ j'', j = j'' + 1 := ⟨j - 1, by omega⟩
    obtain ⟨hb1, hh1⟩ := sim_entry inp i (j' + 1) hi hj
    obtain ⟨hb0, hh0⟩ := sim_entry inp i j' hi (Nat.lt_of_succ_lt hj)
    simp only [Nat.add_sub_cancel]
    rw [hh1, hh0]
    rfl

/-- Witness for claim C3: the height recurrence at crop 0, day 1 of the
zero-input run. -/
theorem claim_C3_witness :
    (simulate_growth zeroInp).height 0 1 =
      logistic_growth ((simulate_growth zeroInp).height 0 0) (MAX_HEIGHT.getD 0 0) *
        growth_factor (zeroInp.soil_ph 0) (PH_TOLERANCE.getD 0 0) *
        growth_factor (zeroInp.soil_n 0) (N_TOLERANCE.getD 0 0) *
        growth_factor (zeroInp.soil_p 0) (P_TOLERANCE.getD 0 0) *
        growth_factor (zeroInp.soil_k 0) (K_TOLERANCE.getD 0 0) *
        solar_effect zeroInp 0 1 * temp_effect zeroInp 0 1 * dust_effect zeroInp 0 1 :=
  claim_C3_height_uses_biomass_init.2.2.2.2.2.2 zeroInp 0 1 (by decide) (by decide) (by decide)

/-- Claim C7: `simulate_growth` is deterministic — two runs whose soil
samples, environment series and crop parameter tables agree value for value
return identical biomass and height matrices. -/
theorem claim_C7_deterministic (inp₁ inp₂ : SimInputs)
    (hph : ∀ c, inp₁.soil_ph c = inp₂.soil_ph c)
    (hn : ∀ c, inp₁.soil_n c = inp₂.soil_n c)
    (hp : ∀ c, inp₁.soil_p c = inp₂.soil_p c)
    (hk : ∀ c, inp₁.soil_k c = inp₂.soil_k c)
    (hs : ∀ d, inp₁.solarAt d = inp₂.solarAt d)
    (ht : ∀ d, inp₁.tempAt d = inp₂.tempAt d)
    (hd : ∀ d, inp₁.dustAt d = inp₂.dustAt d)
    (hg : inp₁.growth_rate = inp₂.growth_rate) :
    (simulate_growth inp₁).biomass = (simulate_growth inp₂).biomass ∧
    (simulate_growth inp₁).height = (simulate_growth inp₂).height := by
  have heq : inp₁ = inp₂ := by
    obtain ⟨a1, a2, a3, a4, a5, a6, a7, a8⟩ := inp₁
    obtain ⟨b1, b2, b3, b4, b5, b6, b7, b8⟩ := inp₂
    have e1 : a1 = b1 := funext hph
    have e2 : a2 = b2 := funext hn
    have e3 : a3 = b3 := funext hp
    have e4 : a4 = b4 := funext hk
    have e5 : a5 = b5 := funext hs
    have e6 : a6 = b6 := funext ht
    have e7 : a7 = b7 := funext hd
    have e8 : a8 = b8 := hg
    subst e1 e2 e3 e4 e5 e6 e7 e8
    rfl
  rw [heq]
  exact ⟨rfl, rfl⟩

/-- Witness for claim C7: re-running on the zero inputs reproduces the same
matrices. -/
theorem claim_C7_witness :
    (simulate_growth zeroInp).biomass = (simulate_growth zeroInp).biomass ∧
    (simulate_growth zeroInp).height = (simulate_growth zeroInp).height := by
  have hz : ∀ f : ℕ → ℝ, ∀ c : ℕ, f c = f c := fun _ _ => rfl
  exact claim_C7_deterministic zeroInp zeroInp (hz _) (hz _) (hz _) (hz _) (hz _)
    (hz _) (hz _) rfl

/-- Congruence of the recurrence sequence: day `j` of the sequence for crop
`i` depends only on crop `i`'s soil sample and on the environment values of
days up to `j`. -/
theorem seqFrom_congr (inp₁ inp₂ : SimInputs) (cap : ℝ) (i : ℕ) (b0 : ℝ)
    (hph : inp₁.soil_ph i = inp₂.soil_ph i)
    (hn : inp₁.soil_n i = inp₂.soil_n i)
    (hp : inp₁.soil_p i = inp₂.soil_p i)
    (hk : inp₁.soil_k i = inp₂.soil_k i) :
    ∀ (j : ℕ),
      (∀ j', j' ≤ j → inp₁.solarAt j' = inp₂.solarAt j') →
      (∀ j', j' ≤ j → inp₁.tempAt j' = inp₂.tempAt j') →
      (∀ j', j' ≤ j → inp₁.dustAt j' = inp₂.dustAt j') →
      seqFrom inp₁ cap i b0 j = seqFrom inp₂ cap i b0 j := by
  intro j
  induction j with
  | zero => intro _ _ _; rfl
  | succ n ih =>
      intro hs ht hd
      show dayUpdate inp₁ cap i (n + 1) (seqFrom inp₁ cap i b0 n) =
        dayUpdate inp₂ cap i (n + 1) (seqFrom inp₂ cap i b0 n)
      rw [ih (fun j' h => hs j' (Nat.le_succ_of_le h))
        (fun j' h => ht j' (Nat.le_succ_of_le h))
        (fun j' h => hd j' (Nat.le_succ_of_le h))]
      unfold dayUpdate solar_effect temp_effect dust_effect
      rw [hph, hn, hp, hk, hs (n + 1) le_rfl, ht (n + 1) le_rfl, hd (n + 1) le_rfl]

/-- Claim C8: the matrices are causally forward-only and crop-independent —
entry `(i, j)` of either matrix is unchanged between two runs that agree on
crop `i`'s soil sample and on the environment values of days `≤ j`, whatever
the other crops' soil values or the environment values of later days. -/
theorem claim_C8_causal_noninterference (inp₁ inp₂ : SimInputs) (i j : ℕ)
    (hi : i < NUM_CROPS) (hj : j < NUM_DAYS)
    (hph : inp₁.soil_ph i = inp₂.soil_ph i)
    (hn : inp₁.soil_n i = inp₂.soil_n i)
    (hp : inp₁.soil_p i = inp₂.soil_p i)
    (hk : inp₁.soil_k i = inp₂.soil_k i)
    (hs : ∀ j', j' ≤ j → inp₁.solarAt j' = inp₂.solarAt j')
    (ht : ∀ j', j' ≤ j → inp₁.tempAt j' = inp₂.tempAt j')
    (hd : ∀ j', j' ≤ j → inp₁.dustAt j' = inp₂.dustAt j') :
    (simulate_growth inp₁).biomass i j = (simulate_growth inp₂).biomass i j ∧
    (simulate_growth inp₁).height i j = (simulate_growth inp₂).height i j := by
  obtain ⟨hb1, hh1⟩ := sim_entry inp₁ i j hi hj
  obtain ⟨hb2, hh2⟩ := sim_entry inp₂ i j hi hj
  rw [hb1, hh1, hb2, hh2]
  exact ⟨seqFrom_congr inp₁ inp₂ _ i _ hph hn hp hk j hs ht hd,
    seqFrom_congr inp₁ inp₂ _ i _ hph hn hp hk j hs ht hd⟩

/-- Witness for claim C8 at crop 0, day 1 of the zero-input run. -/
theorem claim_C8_witness :
    (simulate_growth zeroInp).biomass 0 1 = (simulate_growth zeroInp).biomass 0 1 ∧
    (simulate_growth zeroInp).height 0 1 = (simulate_growth zeroInp).height 0 1 := by
  have hz : ∀ f : ℕ → ℝ, ∀ j' : ℕ, j' ≤ 1 → f j' = f j' := fun _ _ _ => rfl
  exact claim_C8_causal_noninterference zeroInp zeroInp 0 1 (by decide) (by decide)
    rfl rfl rfl rfl (hz _) (hz _) (hz _)

/-- Claim C10: the result of `simulate_growth` does not depend on the
GROWTH_RATE table — two runs differing only in the `growth_rate` field
produce definitionally identical states, because the loop body never reads
it. -/
theorem claim_C10_growth_rate_unused (ph n p k sA tA dA : ℕ → ℝ) (g₁ g₂ : List ℝ) :
    simulate_growth ⟨ph, n, p, k, sA, tA, dA, g₁⟩ =
      simulate_growth ⟨ph, n, p, k, sA, tA, dA, g₂⟩ := rfl

end MarsSim
